import Mathlib

/-!
Verification of the SHARP PyTorch-to-CoreML conversion script
(src/addons/apple_native/ofxSharp/scripts/convert_to_coreml.py).

The script is embedded shallowly: tensors become functions over `Fin`
index types with rational entries, the checkpoint loader becomes a
total function on an abstract checkpoint value returning `Except`,
and the conversion pipeline becomes an explicit event list.  External
collaborators (the torch deserializer, `load_state_dict` binding and
the CoreML runtime) are modelled at their interface boundary as the
spec describes them.
-/

namespace SharpConvert

/-- A rank-3 tensor of rationals, indexed batch by primitive by channel.
The shape lives in the type: a `Tensor3 1 n 14` is a `(1, n, 14)` tensor. -/
def Tensor3 (b n w : Nat) : Type := Fin b → Fin n → Fin w → ℚ

/-- An input image tensor of shape `(1, 3, h, w)`. -/
def ImageT (h w : Nat) : Type := Fin 1 → Fin 3 → Fin h → Fin w → ℚ

/-- Python slicing `output[:, :, lo:hi]` on the last axis of a
`(1, n, 14)` tensor, for `hi ≤ 14`. -/
def sliceLast {n : Nat} (o : Tensor3 1 n 14) (lo hi : Nat) (hle : hi ≤ 14) :
    Tensor3 1 n (hi - lo) :=
  fun b i j => o b i ⟨lo + j.val, by have hj := j.isLt; omega⟩

/-- The five-way decomposition performed inside `SharpModelWrapper.forward`:
positions `[0:3)`, colors `[3:6)`, opacities `[6:7)`, scales `[7:10)`,
rotations `[10:14)`. -/
def decompose {n : Nat} (output : Tensor3 1 n 14) :
    Tensor3 1 n 3 × Tensor3 1 n 3 × Tensor3 1 n 1 × Tensor3 1 n 3 × Tensor3 1 n 4 :=
  (sliceLast output 0 3 (by omega),
   sliceLast output 3 6 (by omega),
   sliceLast output 6 7 (by omega),
   sliceLast output 7 10 (by omega),
   sliceLast output 10 14 (by omega))

/-- `SharpModelWrapper.forward`: run the wrapped model on the image, then
return the five named slices of the raw `(1, n, 14)` output. -/
def SharpModelWrapper.forward {n h w : Nat}
    (model : ImageT h w → Tensor3 1 n 14) (image : ImageT h w) :
    Tensor3 1 n 3 × Tensor3 1 n 3 × Tensor3 1 n 1 × Tensor3 1 n 3 × Tensor3 1 n 4 :=
  decompose (model image)

/-- Concatenation of two tensors along the last axis. -/
def concatLast {b n w1 w2 : Nat} (x : Tensor3 b n w1) (y : Tensor3 b n w2) :
    Tensor3 b n (w1 + w2) :=
  fun a i j =>
    if h : j.val < w1 then x a i ⟨j.val, h⟩
    else y a i ⟨j.val - w1, by have hj := j.isLt; omega⟩

/-- Element-wise absolute differences `np.abs(pt_np - coreml_np)`, with the
tensor flattened to a list of entries. -/
def absDiffs (ref cand : List ℚ) : List ℚ :=
  List.zipWith (fun a b => |a - b|) ref cand

/-- `np.max(np.abs(pt_np - coreml_np))` (equal to `0` on an empty tensor;
all entries are absolute values, so on a nonempty tensor this is the
maximum entry). -/
def max_diff (ref cand : List ℚ) : ℚ := (absDiffs ref cand).foldl max 0

/-- `np.mean(np.abs(pt_np - coreml_np))`. -/
def mean_diff (ref cand : List ℚ) : ℚ :=
  (absDiffs ref cand).sum / ((absDiffs ref cand).length : ℚ)

/-- One `(name, pt_tensor, coreml_tensor)` comparison unit of the
validation loop. -/
structure OutputPair where
  name : String
  ref : List ℚ
  cand : List ℚ

/-- The per-output line printed by the validation loop: name, max
difference, mean difference and the pass flag. -/
structure OutputReport where
  name : String
  maxd : ℚ
  meand : ℚ
  passed : Bool

/-- The report computed for one output: `passed = max_diff < tolerance`. -/
def reportFor (tol : ℚ) (o : OutputPair) : OutputReport :=
  ⟨o.name, max_diff o.ref o.cand, mean_diff o.ref o.cand,
   decide (max_diff o.ref o.cand < tol)⟩

/-- The `for name, pt_tensor in outputs:` loop of `validate_coreml_model`,
threading the mutable `all_passed` accumulator. -/
def outputLoop (tol : ℚ) : List OutputPair → Bool → Bool
  | [], all_passed => all_passed
  | o :: rest, all_passed =>
      outputLoop tol rest (if max_diff o.ref o.cand < tol then all_passed else false)

/-- The five reference tensors produced by the wrapper. -/
structure FiveTensors where
  positions : List ℚ
  colors : List ℚ
  opacities : List ℚ
  scales : List ℚ
  rotations : List ℚ

/-- The `outputs` list built by `validate_coreml_model`: the five named
reference tensors paired with the same-named CoreML outputs. -/
def fiveOutputs (ref : FiveTensors) (cand : String → List ℚ) : List OutputPair :=
  [⟨"positions", ref.positions, cand "positions"⟩,
   ⟨"colors", ref.colors, cand "colors"⟩,
   ⟨"opacities", ref.opacities, cand "opacities"⟩,
   ⟨"scales", ref.scales, cand "scales"⟩,
   ⟨"rotations", ref.rotations, cand "rotations"⟩]

/-- `validate_coreml_model`: compare the five outputs, starting from
`all_passed = True`, and return the aggregate flag. -/
def validate_coreml_model (tol : ℚ) (ref : FiveTensors)
    (cand : String → List ℚ) : Bool :=
  outputLoop tol (fiveOutputs ref cand) true

/-- A Python exception, split by the only distinction `load_pytorch_model`
makes: `RuntimeError` (caught by the fallback) versus everything else. -/
inductive PyExc where
  | runtimeError (msg : String)
  | otherError (msg : String)
deriving DecidableEq

/-- A weight tensor: a shape and abstract contents. -/
structure WTensor where
  shape : List Nat
  data : List ℚ
deriving DecidableEq

/-- A deserialized checkpoint value: either a bare tensor-like object or a
Python dict mapping names to further values. -/
inductive CVal where
  | tensor (t : WTensor)
  | dict (entries : List (String × CVal))

/-- Lines 103-111 of the script: if the checkpoint is a dict, take the
value under `model` if present, else under `state_dict` if present, else
the whole dict; a non-dict checkpoint is used as the state dict itself. -/
def extract_state_dict (checkpoint : CVal) : CVal :=
  match checkpoint with
  | CVal.dict entries =>
      match List.lookup "model" entries with
      | some v => v
      | none =>
          match List.lookup "state_dict" entries with
          | some v => v
          | none => CVal.dict entries
  | CVal.tensor t => CVal.tensor t

/-- The entries of a dict all of whose values are tensors; `none` if some
value is not a tensor. -/
def entryTensors : List (String × CVal) → Option (List (String × WTensor))
  | [] => some []
  | (k, CVal.tensor t) :: rest => (entryTensors rest).map (fun l => (k, t) :: l)
  | (_, CVal.dict _) :: _ => none

/-- View a checkpoint value as a mapping of names to tensors, as
`Module.load_state_dict` requires; `none` when it is not such a mapping. -/
def sdEntries : CVal → Option (List (String × WTensor))
  | CVal.tensor _ => none
  | CVal.dict es => entryTensors es

/-- Parameter names of the model that the state dict does not provide. -/
def missingKeys (init es : List (String × WTensor)) : List String :=
  (init.map Prod.fst).filter fun k => (List.lookup k es).isNone

/-- State-dict names that the model has no parameter for. -/
def unexpectedKeys (init es : List (String × WTensor)) : List String :=
  (es.map Prod.fst).filter fun k => (List.lookup k init).isNone

/-- Names present on both sides whose tensor shapes disagree. -/
def mismatchedKeys (init es : List (String × WTensor)) : List String :=
  (es.filter fun p =>
    match List.lookup p.fst init with
    | some t0 => p.snd.shape != t0.shape
    | none => false).map Prod.fst

/-- Modelled from the spec and the torch interface it names (the binding
facility is an external collaborator, not code of this repository):
`model.load_state_dict(state_dict, strict)` raises a `RuntimeError` on a
shape mismatch in either mode and on missing or unexpected keys in strict
mode, raises a non-`RuntimeError` when the argument is not a mapping of
tensors, and otherwise copies every provided tensor onto the matching
parameter, leaving the remaining parameters at their initial values. -/
def bindStateDict (strict : Bool) (init : List (String × WTensor))
    (sd : CVal) : Except PyExc (List (String × WTensor)) :=
  match sdEntries sd with
  | none => Except.error (PyExc.otherError "Expected state_dict to be dict-like")
  | some es =>
      if mismatchedKeys init es ≠ [] then
        Except.error (PyExc.runtimeError "size mismatch for parameters in state_dict")
      else if strict && !(missingKeys init es).isEmpty then
        Except.error (PyExc.runtimeError "Missing key(s) in state_dict")
      else if strict && !(unexpectedKeys init es).isEmpty then
        Except.error (PyExc.runtimeError "Unexpected key(s) in state_dict")
      else
        Except.ok (init.map fun p =>
          match List.lookup p.fst es with
          | some t => (p.fst, t)
          | none => p)

/-- The freshly constructed placeholder architecture of lines 115-122:
`Conv2d(3, 64, 3)` and `Linear(64, 1000 * 14)` parameters, with abstract
(randomly initialized) contents. -/
def archInit : List (String × WTensor) :=
  [("0.weight", ⟨[64, 3, 3, 3], []⟩), ("0.bias", ⟨[64], []⟩),
   ("4.weight", ⟨[14000, 64], []⟩), ("4.bias", ⟨[14000], []⟩)]

/-- A model instance: its bound parameters and its training-mode flag. -/
structure LoadedModel where
  params : List (String × WTensor)
  training : Bool
deriving DecidableEq

/-- What `load_pytorch_model` hands back on success: the model (in eval
mode), whether the strict-binding warning was printed, and how many
relaxed-binding attempts were made. -/
structure LoadOutcome where
  model : LoadedModel
  strictFailed : Bool
  relaxedAttempts : Nat
deriving DecidableEq

/-- Lines 97-134 of the script. `loaded` is the result of the external
`torch.load` deserializer (an exception or a checkpoint value). The state
dict is extracted, bound strictly, and on a `RuntimeError` re-bound with
`strict=False`; every other exception, and any exception of the relaxed
attempt, propagates. The model is returned in eval mode. -/
def load_pytorch_model (init : List (String × WTensor))
    (loaded : Except PyExc CVal) : Except PyExc LoadOutcome :=
  match loaded with
  | Except.error e => Except.error e
  | Except.ok checkpoint =>
      match bindStateDict true init (extract_state_dict checkpoint) with
      | Except.ok ps => Except.ok ⟨⟨ps, false⟩, false, 0⟩
      | Except.error (PyExc.runtimeError _) =>
          match bindStateDict false init (extract_state_dict checkpoint) with
          | Except.ok ps => Except.ok ⟨⟨ps, false⟩, true, 1⟩
          | Except.error e2 => Except.error e2
      | Except.error (PyExc.otherError m) => Except.error (PyExc.otherError m)

/-- A weights collection that does not itself use a recognized wrapper
key at top level. -/
def wrapperKeyFree : CVal → Prop
  | CVal.tensor _ => True
  | CVal.dict es =>
      List.lookup "model" es = none ∧ List.lookup "state_dict" es = none

/-- A checkpoint whose single tensor has the wrong shape for the model. -/
def badShapeCkpt : CVal := CVal.dict [("0.weight", CVal.tensor ⟨[1], []⟩)]

/-- A checkpoint providing only one of the four parameters. -/
def partialCkpt : CVal := CVal.dict [("0.bias", CVal.tensor ⟨[64], [5]⟩)]

/-- The parameters after relaxed binding of `partialCkpt`: only `0.bias`
is replaced. -/
def psPartial : List (String × WTensor) :=
  [("0.weight", ⟨[64, 3, 3, 3], []⟩), ("0.bias", ⟨[64], [5]⟩),
   ("4.weight", ⟨[14000, 64], []⟩), ("4.bias", ⟨[14000], []⟩)]

/-- A weights collection that itself contains a tensor named `model`. -/
def collidingW : CVal := CVal.dict [("model", CVal.tensor ⟨[64], [1]⟩)]

/-- A well-behaved weights collection used as a witness value. -/
def stateDictEx : CVal := CVal.dict [("0.bias", CVal.tensor ⟨[64], [2]⟩)]

/-- A checkpoint that deserializes to a bare tensor (not a mapping). -/
def tensorCkpt : CVal := CVal.tensor ⟨[2], [7]⟩

/-- A checkpoint whose `4.bias` tensor has a mismatched shape. -/
def shapeMismatchCkpt : CVal := CVal.dict [("4.bias", CVal.tensor ⟨[3], []⟩)]

/-- The exit-code skeleton of `main` (lines 414-474): exit 1 when the
input file is absent; then a try block runs load, convert and (unless
skipped) validate, exiting 1 on any exception; the boolean returned by
validation is ignored, and falling off the end of `main` exits 0.
The convert and validate effects are abstracted as `Except` results of
the external facilities. -/
def mainRun (inputExists : Bool) (init : List (String × WTensor))
    (deserialized : Except PyExc CVal) (convertResult : Except PyExc Unit)
    (skipValidation : Bool) (validationResult : Except PyExc Bool) : Nat :=
  if inputExists = false then 1
  else
    match load_pytorch_model init deserialized with
    | Except.error _ => 1
    | Except.ok _ =>
        match convertResult with
        | Except.error _ => 1
        | Except.ok _ =>
            if skipValidation then 0
            else
              match validationResult with
              | Except.error _ => 1
              | Except.ok _ => 0

/-- The element dtype declared for every port of the artifact. -/
inductive DType where
  | float32
deriving DecidableEq

/-- A `ct.TensorType` declaration: port name, optional fixed shape, dtype. -/
structure TensorTypeDecl where
  name : String
  shape : Option (List Nat)
  dtype : DType
deriving DecidableEq

/-- The conversion artifact: its declared schema, metadata and optional
weight quantization, as assembled by `convert_to_coreml`. -/
structure MLModelArtifact where
  inputs : List TensorTypeDecl
  outputs : List TensorTypeDecl
  author : String
  license : String
  short_description : String
  version : String
  quantizedWeightBits : Option Nat
deriving DecidableEq

/-- Lines 188-249 of `convert_to_coreml`: one input port `image` of shape
`(1, 3, H, W)` float32, five float32 output ports with no declared shape
(the leading primitive count is data-dependent), the embedded metadata,
and 8-bit weight quantization iff the flag is set. `input_shape` is the
`(height, width)` pair passed from `main`. -/
def convert_to_coreml (input_shape : Nat × Nat) (quantize : Bool) :
    MLModelArtifact :=
  { inputs := [⟨"image", some [1, 3, input_shape.1, input_shape.2], DType.float32⟩],
    outputs := [⟨"positions", none, DType.float32⟩,
                ⟨"colors", none, DType.float32⟩,
                ⟨"opacities", none, DType.float32⟩,
                ⟨"scales", none, DType.float32⟩,
                ⟨"rotations", none, DType.float32⟩],
    author := "oflike-metal",
    license := "MIT",
    short_description := "SHARP: Single-image 3D Gaussian Splatting",
    version := "1.0.0",
    quantizedWeightBits := if quantize then some 8 else none }

/-- One observable step of the conversion/validation pipeline. -/
inductive PipeEvent where
  | loadCheckpoint
  | traceModel
  | defineSchema
  | convertGraph
  | setMetadata
  | quantizeWeights
  | saveArtifact (path : String)
  | wrapperInference
  | coremlInference
deriving DecidableEq

/-- The statement order of `convert_to_coreml` (lines 183-253): trace the
wrapper, define the schema, convert the graph, set the metadata, quantize
the weights only when the flag is set, and save to the output path. -/
def convertSteps (outPath : String) (quantize : Bool) : List PipeEvent :=
  [PipeEvent.traceModel, PipeEvent.defineSchema, PipeEvent.convertGraph,
   PipeEvent.setMetadata] ++
    (if quantize then [PipeEvent.quantizeWeights] else []) ++
    [PipeEvent.saveArtifact outPath]

/-- The steps that complete when an exception aborts the run at the first
step where `failAt` holds: the maximal prefix of non-failing steps. -/
def completedSteps (failAt : PipeEvent → Bool)
    (steps : List PipeEvent) : List PipeEvent :=
  steps.takeWhile fun e => !failAt e

/-- The whole pipeline that `main` runs on a successful invocation: load,
convert, and — unless `--skip-validation` was given — one wrapper
inference pass and one CoreML inference pass for comparison. -/
def pipelineEvents (outPath : String)
    (quantize skipValidation : Bool) : List PipeEvent :=
  PipeEvent.loadCheckpoint :: (convertSteps outPath quantize ++
    (if skipValidation then []
     else [PipeEvent.wrapperInference, PipeEvent.coremlInference]))

/-- Whether a pipeline step executes the model (the tracing pass runs the
wrapper once; the two validation steps are the only other executions). -/
def isInferencePass : PipeEvent → Bool
  | PipeEvent.traceModel => true
  | PipeEvent.wrapperInference => true
  | PipeEvent.coremlInference => true
  | _ => false

/-- The artifact paths written during a run. -/
def savedPaths (events : List PipeEvent) : List String :=
  events.filterMap fun e =>
    match e with
    | PipeEvent.saveArtifact p => some p
    | _ => none

/-- A failure injector that fails the tracing step. -/
def failAtTrace : PipeEvent → Bool := fun e => decide (e = PipeEvent.traceModel)

/-- A failure injector that never fails. -/
def noFail : PipeEvent → Bool := fun _ => false

theorem outputLoop_eq_all (tol : ℚ) (outs : List OutputPair) (acc : Bool) :
    outputLoop tol outs acc =
      (acc && outs.all fun o => decide (max_diff o.ref o.cand < tol)) := by
  induction outs generalizing acc with
  | nil => simp [outputLoop]
  | cons o rest ih =>
      by_cases h : max_diff o.ref o.cand < tol
      · simp [outputLoop, h, ih]
      · simp [outputLoop, h, ih]

theorem le_foldl_max (l : List ℚ) (a : ℚ) : a ≤ l.foldl max a := by
  induction l generalizing a with
  | nil => simp
  | cons x xs ih => exact le_trans (le_max_left a x) (ih (max a x))

theorem mem_le_foldl_max (l : List ℚ) :
    ∀ (a x : ℚ), x ∈ l → x ≤ l.foldl max a := by
  induction l with
  | nil => intro a x hx; cases hx
  | cons y ys ih =>
      intro a x hx
      rcases List.mem_cons.mp hx with h | h
      · rw [h, List.foldl_cons]
        exact le_trans (le_max_right a y) (le_foldl_max ys (max a y))
      · rw [List.foldl_cons]
        exact ih (max a y) x h

theorem foldl_max_mem (l : List ℚ) (a : ℚ) :
    l.foldl max a = a ∨ l.foldl max a ∈ l := by
  induction l generalizing a with
  | nil => left; rfl
  | cons x xs ih =>
      rcases ih (max a x) with h | h
      · rcases max_choice a x with hm | hm
        · left; rw [List.foldl_cons, h, hm]
        · right; rw [List.foldl_cons, h, hm]; exact List.mem_cons_self x xs
      · right
        rw [List.foldl_cons]
        exact List.mem_cons_of_mem x h

theorem absDiffs_nonneg (r : List ℚ) :
    ∀ (c : List ℚ) (x : ℚ), x ∈ absDiffs r c → 0 ≤ x := by
  induction r with
  | nil => intro c x hx; simp [absDiffs] at hx
  | cons a as ih =>
      intro c x hx
      cases c with
      | nil => simp [absDiffs] at hx
      | cons b bs =>
          have hx2 : x = |a - b| ∨ x ∈ absDiffs as bs := by
            simpa [absDiffs] using hx
          rcases hx2 with h | h
          · rw [h]; exact abs_nonneg _
          · exact ih bs x h

theorem max_diff_mem (r c : List ℚ) (h : absDiffs r c ≠ []) :
    max_diff r c ∈ absDiffs r c := by
  rcases foldl_max_mem (absDiffs r c) 0 with h0 | hm
  · obtain ⟨y, ys, hl⟩ := List.exists_cons_of_ne_nil h
    have hy : y ∈ absDiffs r c := by
      rw [hl]; exact List.mem_cons_self y ys
    have h1 : y ≤ max_diff r c := mem_le_foldl_max (absDiffs r c) 0 y hy
    have h2 : 0 ≤ y := absDiffs_nonneg r c y hy
    have hmd0 : max_diff r c = 0 := h0
    have hy0 : y = 0 := le_antisymm (hmd0 ▸ h1) h2
    rw [hmd0, hl, ← hy0]
    exact List.mem_cons_self y ys
  · exact hm

/-- Claim C1: for every raw model output tensor of shape `(1, N, 14)`,
`SharpModelWrapper.forward` produces exactly the five tensors obtained by
slicing the last axis at the offset ranges `[0:3)`, `[3:6)`, `[6:7)`,
`[7:10)`, `[10:14)` — of shapes `(1,N,3)`, `(1,N,3)`, `(1,N,1)`, `(1,N,3)`,
`(1,N,4)` (carried by the `Tensor3` index types), in the order positions,
colors, opacities, scales, rotations — and concatenating the five slices
along the last axis reconstructs the original 14-wide tensor exactly. -/
theorem sharp_decompose_shapes_and_roundtrip {n h w : Nat}
    (model : ImageT h w → Tensor3 1 n 14) (image : ImageT h w) :
    SharpModelWrapper.forward model image =
      ((sliceLast (model image) 0 3 (by omega) : Tensor3 1 n 3),
       (sliceLast (model image) 3 6 (by omega) : Tensor3 1 n 3),
       (sliceLast (model image) 6 7 (by omega) : Tensor3 1 n 1),
       (sliceLast (model image) 7 10 (by omega) : Tensor3 1 n 3),
       (sliceLast (model image) 10 14 (by omega) : Tensor3 1 n 4)) ∧
    concatLast (concatLast (concatLast (concatLast
        (SharpModelWrapper.forward model image).1
        (SharpModelWrapper.forward model image).2.1)
        (SharpModelWrapper.forward model image).2.2.1)
        (SharpModelWrapper.forward model image).2.2.2.1)
        (SharpModelWrapper.forward model image).2.2.2.2 = model image := by
  constructor
  · rfl
  · funext a i j
    rcases j with ⟨jv, hj⟩
    interval_cases jv <;> rfl

/-- Claim C2: `validate_coreml_model` computes, for each of the five
outputs, the maximum and mean absolute element-wise difference, marks an
output as passing iff its maximum difference is strictly below the
tolerance, and returns overall pass iff all five outputs pass.
`max_diff` is indeed the maximum: it bounds every element-wise absolute
difference and is attained on any nonempty tensor. -/
theorem validate_coreml_model_spec (tol : ℚ) (ref : FiveTensors)
    (cand : String → List ℚ) :
    (validate_coreml_model tol ref cand = true ↔
      (max_diff ref.positions (cand "positions") < tol ∧
       max_diff ref.colors (cand "colors") < tol ∧
       max_diff ref.opacities (cand "opacities") < tol ∧
       max_diff ref.scales (cand "scales") < tol ∧
       max_diff ref.rotations (cand "rotations") < tol)) ∧
    (∀ o : OutputPair, (reportFor tol o).passed = true ↔
       max_diff o.ref o.cand < tol) ∧
    (∀ o : OutputPair, (reportFor tol o).maxd = max_diff o.ref o.cand ∧
       (reportFor tol o).meand = mean_diff o.ref o.cand) ∧
    (∀ r c x, x ∈ absDiffs r c → x ≤ max_diff r c) ∧
    (∀ r c, absDiffs r c ≠ [] → max_diff r c ∈ absDiffs r c) := by
  refine ⟨?_, ?_, ?_, ?_, ?_⟩
  · rw [validate_coreml_model, outputLoop_eq_all]
    simp [fiveOutputs, and_assoc]
  · intro o; simp [reportFor]
  · intro o; exact ⟨rfl, rfl⟩
  · intro r c x hx; exact mem_le_foldl_max (absDiffs r c) 0 x hx
  · intro r c hne; exact max_diff_mem r c hne

/-- Witness for C2 at a concrete input: five singleton tensors agreeing
exactly, tolerance 1; validation passes and the maximum difference is
attained in the difference list. -/
theorem validate_coreml_model_spec_witness :
    validate_coreml_model 1 ⟨[0], [0], [0], [0], [0]⟩ (fun _ => [0]) = true ∧
    max_diff [0] [0] ∈ absDiffs [0] [0] := by
  constructor
  · exact (validate_coreml_model_spec 1 ⟨[0], [0], [0], [0], [0]⟩
      (fun _ => [0])).1.mpr
      (by refine ⟨?_, ?_, ?_, ?_, ?_⟩ <;> norm_num [max_diff, absDiffs])
  · exact (validate_coreml_model_spec 1 ⟨[0], [0], [0], [0], [0]⟩
      (fun _ => [0])).2.2.2.2 [0] [0] (by decide)

/-- Claim C3 counterexample: a checkpoint that deserializes to an empty
mapping binds zero weights, yet the loader does not fail — strict binding
raises for the missing keys, relaxed binding succeeds vacuously, and the
randomly initialized model (`archInit`, untouched) is returned with only a
warning, contradicting the claim that the loader fails with `LoadError`
whenever no weights can be bound. -/
theorem load_empty_mapping_returns_random_init :
    load_pytorch_model archInit (Except.ok (CVal.dict [])) =
      Except.ok ⟨⟨archInit, false⟩, true, 1⟩ ∧
    ¬ ∃ e, load_pytorch_model archInit (Except.ok (CVal.dict [])) =
      Except.error e := by
  refine ⟨rfl, ?_⟩
  rintro ⟨e, he⟩
  rw [show load_pytorch_model archInit (Except.ok (CVal.dict [])) =
      Except.ok (⟨⟨archInit, false⟩, true, 1⟩ : LoadOutcome) from rfl] at he
  exact Except.noConfusion he

/-- Claim C3 (amended): the Model Loader fails — propagating the
underlying error and returning no model — whenever the checkpoint cannot
be deserialized at all, and whenever, after strict binding raised a
`RuntimeError`, the relaxed binding attempt itself raises; but when
relaxed binding succeeds, a model is returned even if zero weights were
bound, so an empty-mapping checkpoint yields the randomly initialized
model with a warning rather than an error. -/
theorem load_pytorch_model_failure_propagation
    (init : List (String × WTensor)) (loaded : Except PyExc CVal) :
    (∀ e, loaded = Except.error e →
      load_pytorch_model init loaded = Except.error e) ∧
    (∀ checkpoint m e2, loaded = Except.ok checkpoint →
      bindStateDict true init (extract_state_dict checkpoint) =
        Except.error (PyExc.runtimeError m) →
      bindStateDict false init (extract_state_dict checkpoint) =
        Except.error e2 →
      load_pytorch_model init loaded = Except.error e2) := by
  constructor
  · rintro e rfl; rfl
  · rintro checkpoint m e2 rfl h1 h2
    simp [load_pytorch_model, h1, h2]

/-- Witness for the amended C3: a deserialization error propagates, and a
checkpoint whose one tensor has the wrong shape fails both strict and
relaxed binding and makes the loader error. -/
theorem load_pytorch_model_failure_propagation_witness :
    load_pytorch_model archInit (Except.error (PyExc.otherError "invalid load key")) =
      Except.error (PyExc.otherError "invalid load key") ∧
    load_pytorch_model archInit (Except.ok badShapeCkpt) =
      Except.error (PyExc.runtimeError "size mismatch for parameters in state_dict") := by
  constructor
  · exact (load_pytorch_model_failure_propagation archInit
      (Except.error (PyExc.otherError "invalid load key"))).1 _ rfl
  · exact (load_pytorch_model_failure_propagation archInit
      (Except.ok badShapeCkpt)).2 badShapeCkpt
      "size mismatch for parameters in state_dict"
      (PyExc.runtimeError "size mismatch for parameters in state_dict")
      rfl (by rfl) (by rfl)

/-- Claim C5 counterexample: a weights collection that itself contains a
tensor named `model` is not extracted identically when it appears as the
top-level container — the heuristic descends into its `model` entry — so
nesting it under `model` and presenting it at top level give different
extracted collections and different loader results. -/
theorem extract_state_dict_not_identity_on_colliding_key :
    extract_state_dict collidingW ≠ collidingW ∧
    extract_state_dict (CVal.dict [("model", collidingW)]) = collidingW ∧
    load_pytorch_model archInit (Except.ok (CVal.dict [("model", collidingW)])) ≠
      load_pytorch_model archInit (Except.ok collidingW) := by
  refine ⟨?_, rfl, ?_⟩
  · intro hcontra
    exact CVal.noConfusion hcontra
  · intro hcontra
    rw [show load_pytorch_model archInit (Except.ok (CVal.dict [("model", collidingW)])) =
          Except.ok (⟨⟨archInit, false⟩, true, 1⟩ : LoadOutcome) from rfl,
        show load_pytorch_model archInit (Except.ok collidingW) =
          Except.error (PyExc.otherError "Expected state_dict to be dict-like") from rfl]
      at hcontra
    exact Except.noConfusion hcontra

/-- Claim C5 (amended): for every weights collection whose own top level
does not use a recognized wrapper key (`model`, `state_dict`), nesting it
under `model`, nesting it under `state_dict`, or presenting it as the
top-level container extracts the identical collection and makes the
loader bind it identically; in a mapping the recognized keys are searched
in the fixed order `model` then `state_dict`, and a non-mapping container
is treated as the weights collection itself. -/
theorem extract_state_dict_equivalence (W : CVal) (hW : wrapperKeyFree W) :
    extract_state_dict (CVal.dict [("model", W)]) = W ∧
    extract_state_dict (CVal.dict [("state_dict", W)]) = W ∧
    extract_state_dict W = W ∧
    (∀ init : List (String × WTensor),
      load_pytorch_model init (Except.ok (CVal.dict [("model", W)])) =
        load_pytorch_model init (Except.ok W) ∧
      load_pytorch_model init (Except.ok (CVal.dict [("state_dict", W)])) =
        load_pytorch_model init (Except.ok W)) ∧
    (∀ entries v, List.lookup "model" entries = some v →
      extract_state_dict (CVal.dict entries) = v) ∧
    (∀ entries v, List.lookup "model" entries = none →
      List.lookup "state_dict" entries = some v →
      extract_state_dict (CVal.dict entries) = v) ∧
    (∀ t, extract_state_dict (CVal.tensor t) = CVal.tensor t) := by
  have h1 : extract_state_dict (CVal.dict [("model", W)]) = W := rfl
  have h2 : extract_state_dict (CVal.dict [("state_dict", W)]) = W := rfl
  have h3 : extract_state_dict W = W := by
    match W, hW with
    | CVal.tensor t, _ => rfl
    | CVal.dict es, hW =>
        simp [extract_state_dict, hW.1, hW.2]
  refine ⟨h1, h2, h3, ?_, ?_, ?_, ?_⟩
  · intro init
    constructor
    · simp only [load_pytorch_model, h1, h3]
    · simp only [load_pytorch_model, h2, h3]
  · intro entries v hv
    simp [extract_state_dict, hv]
  · intro entries v hnone hv
    simp [extract_state_dict, hnone, hv]
  · intro t; rfl

/-- Witness for the amended C5 at a concrete collection. -/
theorem extract_state_dict_equivalence_witness :
    extract_state_dict (CVal.dict [("model", stateDictEx)]) = stateDictEx ∧
    load_pytorch_model archInit (Except.ok (CVal.dict [("state_dict", stateDictEx)])) =
      load_pytorch_model archInit (Except.ok stateDictEx) := by
  have h := extract_state_dict_equivalence stateDictEx ⟨rfl, rfl⟩
  exact ⟨h.1, (h.2.2.2.1 archInit).2⟩

/-- Claim C6: whenever strict binding raises a `RuntimeError` and relaxed
binding succeeds, the loader does not raise — it falls back exactly once,
surfaces the condition as a warning only, and returns a usable model in
evaluation mode (`training = false`) with the best-effort weights. -/
theorem load_pytorch_model_relaxed_fallback
    (init : List (String × WTensor)) (checkpoint : CVal) (m : String)
    (ps : List (String × WTensor))
    (h1 : bindStateDict true init (extract_state_dict checkpoint) =
      Except.error (PyExc.runtimeError m))
    (h2 : bindStateDict false init (extract_state_dict checkpoint) =
      Except.ok ps) :
    load_pytorch_model init (Except.ok checkpoint) =
      Except.ok ⟨⟨ps, false⟩, true, 1⟩ := by
  simp [load_pytorch_model, h1, h2]

/-- Witness for C6: a checkpoint providing only `0.bias` fails strict
binding (missing keys) and relaxed-binds that one tensor. -/
theorem load_pytorch_model_relaxed_fallback_witness :
    load_pytorch_model archInit (Except.ok partialCkpt) =
      Except.ok ⟨⟨psPartial, false⟩, true, 1⟩ :=
  load_pytorch_model_relaxed_fallback archInit partialCkpt
    "Missing key(s) in state_dict" psPartial (by rfl) (by rfl)

/-- Claim C10: the relaxed-binding fallback is triggered only by a
`RuntimeError` from the strict attempt — every other exception type
propagates out of the loader directly, and any exception raised by the
relaxed attempt itself propagates with no further fallback. -/
theorem load_pytorch_model_fallback_only_on_runtime_error
    (init : List (String × WTensor)) (checkpoint : CVal) :
    (∀ m, bindStateDict true init (extract_state_dict checkpoint) =
        Except.error (PyExc.otherError m) →
      load_pytorch_model init (Except.ok checkpoint) =
        Except.error (PyExc.otherError m)) ∧
    (∀ m e, bindStateDict true init (extract_state_dict checkpoint) =
        Except.error (PyExc.runtimeError m) →
      bindStateDict false init (extract_state_dict checkpoint) =
        Except.error e →
      load_pytorch_model init (Except.ok checkpoint) = Except.error e) := by
  constructor
  · intro m h
    simp [load_pytorch_model, h]
  · intro m e h1 h2
    simp [load_pytorch_model, h1, h2]

/-- Witness for C10: a non-mapping checkpoint raises a non-`RuntimeError`
that propagates without fallback, and a shape-mismatch checkpoint makes
the relaxed attempt raise, which also propagates. -/
theorem load_pytorch_model_fallback_only_on_runtime_error_witness :
    load_pytorch_model archInit (Except.ok tensorCkpt) =
      Except.error (PyExc.otherError "Expected state_dict to be dict-like") ∧
    load_pytorch_model archInit (Except.ok shapeMismatchCkpt) =
      Except.error (PyExc.runtimeError "size mismatch for parameters in state_dict") := by
  constructor
  · exact (load_pytorch_model_fallback_only_on_runtime_error archInit
      tensorCkpt).1 "Expected state_dict to be dict-like" (by rfl)
  · exact (load_pytorch_model_fallback_only_on_runtime_error archInit
      shapeMismatchCkpt).2 "size mismatch for parameters in state_dict"
      (PyExc.runtimeError "size mismatch for parameters in state_dict")
      (by rfl) (by rfl)

/-- Claim C4: the command-line tool exits 1 when the input file is absent
and when loading or conversion raises an unrecovered error; it exits 0 on
success, and a validation failure (the validation call returning `false`)
never changes the exit code — the process still exits 0. -/
theorem mainRun_exit_codes (inputExists : Bool)
    (init : List (String × WTensor)) (deserialized : Except PyExc CVal)
    (convertResult : Except PyExc Unit) (skipValidation : Bool)
    (validationResult : Except PyExc Bool) :
    (inputExists = false →
      mainRun inputExists init deserialized convertResult skipValidation
        validationResult = 1) ∧
    (∀ e, load_pytorch_model init deserialized = Except.error e →
      mainRun true init deserialized convertResult skipValidation
        validationResult = 1) ∧
    (∀ outcome e, load_pytorch_model init deserialized = Except.ok outcome →
      convertResult = Except.error e →
      mainRun true init deserialized convertResult skipValidation
        validationResult = 1) ∧
    (∀ outcome, load_pytorch_model init deserialized = Except.ok outcome →
      convertResult = Except.ok () →
      mainRun true init deserialized convertResult true validationResult = 0) ∧
    (∀ outcome passed, load_pytorch_model init deserialized = Except.ok outcome →
      convertResult = Except.ok () →
      mainRun true init deserialized convertResult false
        (Except.ok passed) = 0) := by
  refine ⟨?_, ?_, ?_, ?_, ?_⟩
  · rintro rfl; rfl
  · intro e h; simp [mainRun, h]
  · intro outcome e h1 h2; simp [mainRun, h1, h2]
  · intro outcome h1 h2; simp [mainRun, h1, h2]
  · intro outcome passed h1 h2; simp [mainRun, h1, h2]

/-- Witness for C4 at concrete inputs: absent input file exits 1; a
deserialization error exits 1; a full run whose validation returns
`false` still exits 0. -/
theorem mainRun_exit_codes_witness :
    mainRun false archInit (Except.ok partialCkpt) (Except.ok ()) false
      (Except.ok true) = 1 ∧
    mainRun true archInit (Except.error (PyExc.otherError "unreadable"))
      (Except.ok ()) false (Except.ok true) = 1 ∧
    mainRun true archInit (Except.ok partialCkpt) (Except.ok ()) false
      (Except.ok false) = 0 := by
  refine ⟨?_, ?_, ?_⟩
  · exact (mainRun_exit_codes false archInit (Except.ok partialCkpt)
      (Except.ok ()) false (Except.ok true)).1 rfl
  · exact (mainRun_exit_codes true archInit
      (Except.error (PyExc.otherError "unreadable")) (Except.ok ()) false
      (Except.ok true)).2.1 (PyExc.otherError "unreadable") rfl
  · exact (mainRun_exit_codes true archInit (Except.ok partialCkpt)
      (Except.ok ()) false (Except.ok false)).2.2.2.2
      ⟨⟨psPartial, false⟩, true, 1⟩ false (by rfl) rfl

/-- Claim C7: conversion at target resolution `(H, W)` declares exactly
one input port, named `image`, of shape `(1, 3, H, W)` and float32 dtype,
and exactly five float32 output ports named `positions`, `colors`,
`opacities`, `scales`, `rotations`, each with no fixed leading
primitive-count dimension (shape `none`). -/
theorem convert_to_coreml_schema (H W : Nat) (quantize : Bool) :
    (convert_to_coreml (H, W) quantize).inputs =
      [⟨"image", some [1, 3, H, W], DType.float32⟩] ∧
    (convert_to_coreml (H, W) quantize).outputs =
      [⟨"positions", none, DType.float32⟩,
       ⟨"colors", none, DType.float32⟩,
       ⟨"opacities", none, DType.float32⟩,
       ⟨"scales", none, DType.float32⟩,
       ⟨"rotations", none, DType.float32⟩] :=
  ⟨rfl, rfl⟩

/-- Claim C8: in `convert_to_coreml`, weight quantization happens only
when the flag is set and strictly after tracing, serialization is the
last step and happens only after the full graph, schema and metadata are
assembled (and after quantization when enabled), and a failure during
tracing or assembly leaves no partially written artifact: the save step
is reached only when every earlier step completed. -/
theorem convert_quantize_after_trace_save_last (outPath : String)
    (quantize : Bool) (failAt : PipeEvent → Bool) :
    convertSteps outPath true =
      [PipeEvent.traceModel, PipeEvent.defineSchema, PipeEvent.convertGraph,
       PipeEvent.setMetadata, PipeEvent.quantizeWeights,
       PipeEvent.saveArtifact outPath] ∧
    convertSteps outPath false =
      [PipeEvent.traceModel, PipeEvent.defineSchema, PipeEvent.convertGraph,
       PipeEvent.setMetadata, PipeEvent.saveArtifact outPath] ∧
    (convertSteps outPath quantize).getLast? =
      some (PipeEvent.saveArtifact outPath) ∧
    (failAt PipeEvent.traceModel = true →
      completedSteps failAt (convertSteps outPath quantize) = []) ∧
    (PipeEvent.saveArtifact outPath ∈
        completedSteps failAt (convertSteps outPath quantize) →
      completedSteps failAt (convertSteps outPath quantize) =
        convertSteps outPath quantize) := by
  refine ⟨rfl, rfl, ?_, ?_, ?_⟩
  · cases quantize <;> rfl
  · intro h
    cases quantize <;> simp [completedSteps, convertSteps, h]
  · intro hmem
    cases quantize <;>
      by_cases h1 : failAt PipeEvent.traceModel <;>
      by_cases h2 : failAt PipeEvent.defineSchema <;>
      by_cases h3 : failAt PipeEvent.convertGraph <;>
      by_cases h4 : failAt PipeEvent.setMetadata <;>
      by_cases h5 : failAt PipeEvent.quantizeWeights <;>
      by_cases h6 : failAt (PipeEvent.saveArtifact outPath) <;>
      simp_all [completedSteps, convertSteps]

/-- Witness for C8: with a failure injected at tracing nothing completes
(no artifact is written), and with no failure the save step is reached
with every step completed. -/
theorem convert_quantize_after_trace_save_last_witness :
    completedSteps failAtTrace (convertSteps "sharp.mlpackage" true) = [] ∧
    completedSteps noFail (convertSteps "sharp.mlpackage" true) =
      convertSteps "sharp.mlpackage" true := by
  constructor
  · exact (convert_quantize_after_trace_save_last "sharp.mlpackage" true
      failAtTrace).2.2.2.1 rfl
  · exact (convert_quantize_after_trace_save_last "sharp.mlpackage" true
      noFail).2.2.2.2 (by decide)

/-- Claim C9: a run with `--skip-validation` writes the artifact at the
requested output path, and the only model-executing step in the whole
pipeline is the single tracing pass — neither the wrapper nor the
artifact is executed for comparison. -/
theorem skip_validation_single_trace_pass (outPath : String)
    (quantize : Bool) :
    savedPaths (pipelineEvents outPath quantize true) = [outPath] ∧
    (pipelineEvents outPath quantize true).filter isInferencePass =
      [PipeEvent.traceModel] := by
  cases quantize <;> exact ⟨rfl, rfl⟩

end SharpConvert
